import Mathlib

/-!
Verification of the request-handling core of nareshv/http-server.

Shallow embedding of the three C source files:
- my-time.c : httpHeaderTime (strftime of gmtime)
- threaded-server.c : getFileSize, getFileLastModTime, transferFile,
  getLogTime, handleHTTPRequest, and the accept loop of main.

The filesystem is modelled as a pure function from paths to nodes; the
clock (time, gmtime_r, localtime_r) is modelled as an environment of pure
functions; socket writes are modelled by returning the bytes that the
handler writes (status line, header block, body) together with the stderr
request-log lines.
-/

namespace HttpServer

/-- Broken-down calendar time, the fields of struct tm that the two
formatting routines consume. -/
structure Tm where
  wday : Nat
  mday : Nat
  mon  : Nat
  year : Nat
  hour : Nat
  min  : Nat
  sec  : Nat
  deriving DecidableEq

def wdayName (w : Nat) : String :=
  match w with
  | 0 => "Sun" | 1 => "Mon" | 2 => "Tue" | 3 => "Wed" | 4 => "Thu" | 5 => "Fri" | _ => "Sat"

def monName (m : Nat) : String :=
  match m with
  | 0 => "Jan" | 1 => "Feb" | 2 => "Mar" | 3 => "Apr" | 4 => "May" | 5 => "Jun"
  | 6 => "Jul" | 7 => "Aug" | 8 => "Sep" | 9 => "Oct" | 10 => "Nov" | _ => "Dec"

/-- Two-digit zero padding, as printed by strftime %d, %H, %M, %S. -/
def pad2 (n : Nat) : String := if n < 10 then "0" ++ toString n else toString n

/-- Width-3 space padding, as printed by the %3d day-of-month field of asctime. -/
def padSp3 (n : Nat) : String := if n < 10 then "  " ++ toString n else " " ++ toString n

/-- my-time.c lines 5-13: httpHeaderTime formats a broken-down UTC time with
strftime "%a, %d %b %Y %T %Z"; %Z renders as GMT on the gmtime result.
The Int-to-Tm conversion gmtime_r is an environment parameter (see Env). -/
def httpHeaderTime (t : Tm) : String :=
  wdayName t.wday ++ ", " ++ pad2 t.mday ++ " " ++ monName t.mon ++ " " ++ toString t.year ++ " " ++
  pad2 t.hour ++ ":" ++ pad2 t.min ++ ":" ++ pad2 t.sec ++ " GMT"

/-- asctime_r output "%.3s %.3s%3d %02d:%02d:%02d %4d" with the trailing
newline already removed (getLogTime overwrites it with NUL). -/
def asctimeFmt (t : Tm) : String :=
  wdayName t.wday ++ " " ++ monName t.mon ++ padSp3 t.mday ++ " " ++
  pad2 t.hour ++ ":" ++ pad2 t.min ++ ":" ++ pad2 t.sec ++ " " ++ toString t.year

/-- Clock environment: time(NULL) is `now`, gmtime_r and localtime_r are
pure conversions from a Unix timestamp to broken-down time. -/
structure Env where
  gmtime : Int → Tm
  localtime : Int → Tm
  now : Int

/-- threaded-server.c lines 227-234: getLogTime ignores its argument,
takes time(NULL) again, converts with localtime_r and formats with
asctime_r, dropping the newline. -/
def getLogTime (env : Env) : String := asctimeFmt (env.localtime env.now)

/-- The fields of the global ServerConfiguration that the request path reads. -/
structure Config where
  serverRoot : String
  indexFile : String
  serverName : String
  serveIndexFileInDirectory : Nat

/-- A filesystem node as seen through lstat and open:
a regular file carries its content (st_size is the content length),
st_mtime, whether open(O_RDONLY) succeeds, and whether sendfile succeeds;
a directory carries st_mtime; absent covers every lstat failure. -/
inductive FNode where
  | regular (content : String) (modTime : Int) (openOk : Bool) (sendOk : Bool)
  | directory (modTime : Int)
  | absent
  deriving DecidableEq

/-- The filesystem, immutable for the duration of a request. -/
def FS := String → FNode

/-- threaded-server.c lines 85-96: st_size for a regular file, -2 for a
directory, -1 for any lstat failure or other node kind. -/
def getFileSize (fs : FS) (path : String) : Int :=
  match fs path with
  | FNode.regular c _ _ _ => (c.length : Int)
  | FNode.directory _ => -2
  | FNode.absent => -1

/-- threaded-server.c lines 98-105: st_mtime when lstat succeeds, -1 otherwise. -/
def getFileLastModTime (fs : FS) (path : String) : Int :=
  match fs path with
  | FNode.regular _ mt _ _ => mt
  | FNode.directory mt => mt
  | FNode.absent => -1

/-- The ProbeResult classification of the spec data model, read off the
same lstat information that getFileSize inspects. -/
inductive ProbeResult where
  | RegularFile (size : Nat) (modTime : Int)
  | Directory
  | NotFound
  deriving DecidableEq

def probe (fs : FS) (path : String) : ProbeResult :=
  match fs path with
  | FNode.regular c mt _ _ => ProbeResult.RegularFile c.length mt
  | FNode.directory _ => ProbeResult.Directory
  | FNode.absent => ProbeResult.NotFound

/-- Bool form of: the node exists, is regular, and open(O_RDONLY) fails. -/
def openFailsB (fs : FS) (path : String) : Bool :=
  match fs path with
  | FNode.regular _ _ oOk _ => !oOk
  | _ => false

def CONTENT_YES : Nat := 1
def CONTENT_NO : Nat := 0

def status200 : String := "HTTP/1.1 200 OK"
def status400 : String := "HTTP/1.1 400 Bad Request"
def status403 : String := "HTTP/1.1 403 Forbidden"
def status404 : String := "HTTP/1.1 404 Not Found"
def status405 : String := "HTTP/1.1 405 Method Not Allowed"
def status503 : String := "HTTP/1.1 503 Service Unavailable"

def HTTP_BODY_400 : String :=
  "<!doctype html><html><head><meta charset=\x27utf-8\x27><title>400</title></head><body style=\x27background-color:#9800cf;color:#fff;\x27>" ++
  "<h1>400 - Bad Request</h1><hr style=\x27border: 1px solid #fff; height: 0\x27></body></html>"

def HTTP_BODY_403 : String :=
  "<!doctype html><html><head><meta charset=\x27utf-8\x27><title>403</title></head><body style=\x27background-color:#0098cf;color:#fff;\x27>" ++
  "<h1>404 - Forbidden</h1><hr style=\x27border: 1px solid #fff; height: 0\x27></body></html>"

def HTTP_BODY_404 : String :=
  "<!doctype html><html><head><meta charset=\x27utf-8\x27><title>404</title></head><body style=\x27background-color:#0098cf;color:#fff;\x27>" ++
  "<h1>404 - Page Not Found</h1><hr style=\x27border: 1px solid #fff; height: 0\x27></body></html>"

def HTTP_BODY_405 : String :=
  "<!doctype html><html><head><meta charset=\x27utf-8\x27><title>405</title></head><body style=\x27background-color:#0098cf;color:#fff;\x27>" ++
  "<h1>405 - Method Not Allowed<h1><hr style=\x27border: 1px solid #fff; height: 0\x27></body></html>"

def HTTP_BODY_503 : String :=
  "<!doctype html><html><head><meta charset=\x27utf-8\x27><title>503</title></head><body style=\x27background-color:#cf9800;color:#fff;\x27>" ++
  "<h1>503 - Service Unavailable</h1><hr style=\x27border: 1px solid #fff; height: 0\x27></body></html>"

/-- The outcome classification of the spec data model (section 3). -/
inductive Outcome where
  | ok
  | serviceUnavailable
  | notFoundNoIndex
  | directoryListingDenied
  | notFound
  | methodNotAllowed
  | badRequestNoHost
  deriving DecidableEq

/-- A response as written on the socket: status line, header block as an
ordered name-value list, and the bytes following the blank line. -/
structure HttpResponse where
  statusLine : String
  headerList : List (String × String)
  body : String
  deriving DecidableEq

/-- Header block of the 200 branch, threaded-server.c lines 149-157:
Date from time(NULL), Last-Modified from st_mtime, Content-Length from
st_size, Server from the configuration. -/
def okHeaderList (cfg : Config) (env : Env) (size : Nat) (lastmod : Int) : List (String × String) :=
  [("Date", httpHeaderTime (env.gmtime env.now)),
   ("Last-Modified", httpHeaderTime (env.gmtime lastmod)),
   ("Content-Length", toString size),
   ("Server", cfg.serverName)]

/-- Header block shared by every non-200 branch: Connection: close, Server. -/
def errHeaderList (cfg : Config) : List (String × String) :=
  [("Connection", "close"), ("Server", cfg.serverName)]

/-- Build a non-200 response: error status, close headers, fixed HTML body. -/
def err (cfg : Config) (status : String) (body : String) : HttpResponse :=
  { statusLine := status, headerList := errHeaderList cfg, body := body }

def renderHeaders : List (String × String) → String
  | [] => ""
  | (n, v) :: rest => n ++ ": " ++ v ++ "\r\n" ++ renderHeaders rest

/-- The exact byte stream a response produces on the socket. -/
def wire (r : HttpResponse) : String :=
  r.statusLine ++ "\r\n" ++ renderHeaders r.headerList ++ "\r\n" ++ r.body

/-- Result of transferFile: the response written, the returned sentbytes
value, and the outcome classification. -/
structure TransferResult where
  resp : HttpResponse
  sentbytes : Int
  outcome : Outcome
  deriving DecidableEq

/-- threaded-server.c lines 134-222, transferFile. The C code branches on
getFileSize: size greater than 0 (regular nonempty: serve, or 503 when
open fails), size equal to -2 (directory: index recursion / inline 404 /
403), everything else (-1 from lstat failure, and also 0 from an empty
regular file) falls to the final 404. The match below is that same case
split on the node. The source recursion `return transferFile(filename)`
is guarded by getFileSize(filename) > 0, so the callee always takes the
regular branch; `fuel` makes that bounded recursion structural, and the
fuel-0 arm is unreachable from transferFile (fuel 1). On a GET the
sendfile result is st_size on success and -1 on error. -/
def transferStep (cfg : Config) (env : Env) (fs : FS)
    (recur : String → Nat → TransferResult) (file : String) (nocontent : Nat) : TransferResult :=
  match fs file with
  | FNode.regular content modTime openOk sendOk =>
    if 0 < content.length then
      if openOk then
        if nocontent = CONTENT_YES then
          if sendOk then
            { resp := { statusLine := status200,
                        headerList := okHeaderList cfg env content.length modTime,
                        body := content },
              sentbytes := (content.length : Int), outcome := Outcome.ok }
          else
            { resp := { statusLine := status200,
                        headerList := okHeaderList cfg env content.length modTime,
                        body := "" },
              sentbytes := -1, outcome := Outcome.ok }
        else
          { resp := { statusLine := status200,
                      headerList := okHeaderList cfg env content.length modTime,
                      body := "" },
            sentbytes := 0, outcome := Outcome.ok }
      else
        { resp := err cfg status503 HTTP_BODY_503, sentbytes := 0,
          outcome := Outcome.serviceUnavailable }
    else
      { resp := err cfg status404 HTTP_BODY_404, sentbytes := 0,
        outcome := Outcome.notFound }
  | FNode.directory _ =>
    if cfg.serveIndexFileInDirectory = 1 then
      if 0 < getFileSize fs (file ++ "/" ++ cfg.indexFile) then
        recur (file ++ "/" ++ cfg.indexFile) nocontent
      else
        { resp := err cfg status404 HTTP_BODY_404, sentbytes := 0,
          outcome := Outcome.notFoundNoIndex }
    else
      { resp := err cfg status403 HTTP_BODY_403, sentbytes := 0,
        outcome := Outcome.directoryListingDenied }
  | FNode.absent =>
    { resp := err cfg status404 HTTP_BODY_404, sentbytes := 0,
      outcome := Outcome.notFound }

/-- The fuel recursion; the fuel-0 continuation is unreachable from
transferFile because the source recursion is guarded by
getFileSize(filename) > 0 and the callee then takes the regular branch. -/
def transferFileAux (cfg : Config) (env : Env) (fs : FS) : Nat → String → Nat → TransferResult
  | 0, file, nocontent =>
    transferStep cfg env fs
      (fun _ _ => { resp := err cfg status404 HTTP_BODY_404, sentbytes := 0,
                    outcome := Outcome.notFound })
      file nocontent
  | Nat.succ f, file, nocontent =>
    transferStep cfg env fs (transferFileAux cfg env fs f) file nocontent

def transferFile (cfg : Config) (env : Env) (fs : FS) (file : String) (nocontent : Nat) : TransferResult :=
  transferFileAux cfg env fs 1 file nocontent

/-- Number of recursive transferFile invocations performed by the
directory index fallback, with the same branch structure. -/
def transferCallsStep (cfg : Config) (fs : FS) (recur : String → Nat) (file : String) : Nat :=
  match fs file with
  | FNode.directory _ =>
    if cfg.serveIndexFileInDirectory = 1 then
      if 0 < getFileSize fs (file ++ "/" ++ cfg.indexFile) then
        recur (file ++ "/" ++ cfg.indexFile)
      else 0
    else 0
  | _ => 0

def transferCalls (cfg : Config) (fs : FS) : Nat → String → Nat
  | 0, file => transferCallsStep cfg fs (fun _ => 0) file
  | Nat.succ f, file =>
    transferCallsStep cfg fs (fun g => 1 + transferCalls cfg fs f g) file

/-- Whitespace as recognised by the %s conversions of sscanf (isspace). -/
def wsp (c : Char) : Bool :=
  c == ' ' || c == '\t' || c == '\n' || c == '\r' || c == '\x0b' || c == '\x0c'

def tokenizeAux : List Char → List Char → List (List Char)
  | cur, [] => if cur.isEmpty then [] else [cur.reverse]
  | cur, c :: rest =>
    if wsp c then
      if cur.isEmpty then tokenizeAux [] rest
      else cur.reverse :: tokenizeAux [] rest
    else tokenizeAux (c :: cur) rest

/-- The whitespace-delimited tokens of the read buffer. -/
def bufTokens (s : String) : List String :=
  (tokenizeAux [] s.data).map (fun cs => String.mk cs)

/-- sscanf(headers, "%s %s %s") reads token i of the buffer; a missing
token is modelled as the empty string. -/
def tok (s : String) (i : Nat) : String := (bufTokens s).getD i ""

def lowerChar (c : Char) : Char := c.toLower

def listHasSub (needle : List Char) : List Char → Bool
  | [] => needle.isEmpty
  | c :: rest => needle.isPrefixOf (c :: rest) || listHasSub needle rest

/-- strcasestr(hay, needle) != NULL: case-insensitive substring hit. -/
def strcasestrHit (hay : String) (needle : String) : Bool :=
  listHasSub (needle.data.map lowerChar) (hay.data.map lowerChar)

/-- The stderr request-log line, threaded-server.c lines 294, 302, 317:
fprintf(stderr, "[%s] %s %s %s %zd", ltime, proto, method, url, rbytes). -/
def mkLogLine (env : Env) (proto method url : String) (rbytes : Int) : String :=
  "[" ++ getLogTime env ++ "] " ++ proto ++ " " ++ method ++ " " ++ url ++ " " ++ toString rbytes

/-- What one request leaves behind: the response written to the socket,
its outcome class, and the request-log lines written to stderr (the
LOG_DEBUG diagnostics, which use a distinct "[debug]" format, are not
modelled). -/
structure HandlerResult where
  response : HttpResponse
  outcome : Outcome
  logLines : List String
  deriving DecidableEq

/-- threaded-server.c lines 244-322, handleHTTPRequest, for the case in
which recv succeeded and `buffer` is the bytes read (on recv error the
code writes nothing and closes, which is outside this function). The
host check (strcasestr for "host:") comes first; without a hit the 400
response is written and no log line is emitted. Otherwise sscanf
extracts the first three whitespace tokens and dispatch compares the
method with strcmp against GET and HEAD. -/
def handleHTTPRequest (cfg : Config) (env : Env) (fs : FS) (buffer : String) : HandlerResult :=
  if strcasestrHit buffer "host:" = false then
    { response := err cfg status400 HTTP_BODY_400,
      outcome := Outcome.badRequestNoHost, logLines := [] }
  else
    if tok buffer 0 = "GET" then
      { response := (transferFile cfg env fs (cfg.serverRoot ++ "/" ++ tok buffer 1) CONTENT_YES).resp,
        outcome := (transferFile cfg env fs (cfg.serverRoot ++ "/" ++ tok buffer 1) CONTENT_YES).outcome,
        logLines := [mkLogLine env (tok buffer 2) (tok buffer 0) (tok buffer 1)
          (transferFile cfg env fs (cfg.serverRoot ++ "/" ++ tok buffer 1) CONTENT_YES).sentbytes] }
    else if tok buffer 0 = "HEAD" then
      { response := (transferFile cfg env fs (cfg.serverRoot ++ "/" ++ tok buffer 1) CONTENT_NO).resp,
        outcome := (transferFile cfg env fs (cfg.serverRoot ++ "/" ++ tok buffer 1) CONTENT_NO).outcome,
        logLines := [mkLogLine env (tok buffer 2) (tok buffer 0) (tok buffer 1)
          (transferFile cfg env fs (cfg.serverRoot ++ "/" ++ tok buffer 1) CONTENT_NO).sentbytes] }
    else
      { response := err cfg status405 HTTP_BODY_405,
        outcome := Outcome.methodNotAllowed,
        logLines := [mkLogLine env (tok buffer 2) (tok buffer 0) (tok buffer 1)
          (HTTP_BODY_405.length : Int)] }

/-- Events observable at the accept loop: a connection is accepted, a
worker finishes handling a connection. -/
inductive ConnEvent where
  | accepted (i : Nat)
  | completed (i : Nat)
  deriving DecidableEq

/-- threaded-server.c lines 488-507: the while(1) loop accepts connection
i, calls pthread_create for it, and immediately pthread_join blocks until
that worker completes, before accept is reached again for connection i+1.
So the event order for n pending connections is strictly serialized. -/
def acceptLoopAux (i : Nat) : Nat → List ConnEvent
  | 0 => []
  | Nat.succ remaining =>
    ConnEvent.accepted i :: ConnEvent.completed i :: acceptLoopAux (i + 1) remaining

def acceptLoop (n : Nat) : List ConnEvent := acceptLoopAux 0 n

/-! ### Concrete fixtures used by witnesses and counterexamples -/

/-- A configuration as processArguments builds it: serveIndexFileInDirectory
is hard-wired to 1 and the server name to Route5/1.0. -/
def cfg0 : Config :=
  { serverRoot := "/r", indexFile := "index.html", serverName := "Route5/1.0",
    serveIndexFileInDirectory := 1 }

/-- Thu 01 Jan 1970 00:00:00. -/
def tm0 : Tm := { wday := 4, mday := 1, mon := 0, year := 1970, hour := 0, min := 0, sec := 0 }

def env0 : Env := { gmtime := fun _ => tm0, localtime := fun _ => tm0, now := 0 }

def fsAbsent : FS := fun _ => FNode.absent

/-- One readable two-byte file at the resolved path of URL /f. -/
def fsFile : FS := fun p =>
  if p = "/r//f" then FNode.regular "hi" 5 true true else FNode.absent

/-- One readable zero-byte regular file at the resolved path of URL /e. -/
def fsEmptyFile : FS := fun p =>
  if p = "/r//e" then FNode.regular "" 2 true true else FNode.absent

/-- A zero-byte regular file whose open(O_RDONLY) fails, at URL /z. -/
def fsEmptyNoOpen : FS := fun p =>
  if p = "/r//z" then FNode.regular "" 7 false true else FNode.absent

/-- A directory at URL /d whose index file is a zero-byte regular file. -/
def fsDirEmptyIdx : FS := fun p =>
  if p = "/r//d" then FNode.directory 0
  else if p = "/r//d/index.html" then FNode.regular "" 3 true true
  else FNode.absent

/-- A directory at URL /d whose index file is a readable five-byte file. -/
def fsDirIdx : FS := fun p =>
  if p = "/r//d" then FNode.directory 0
  else if p = "/r//d/index.html" then FNode.regular "hello" 9 true true
  else FNode.absent

/-! ### Helper lemmas about the embedding -/

lemma getFileSize_pos (fs : FS) (p : String) (h : 0 < getFileSize fs p) :
    ∃ c mt oOk sOk, fs p = FNode.regular c mt oOk sOk ∧ 0 < c.length := by
  cases hf : fs p with
  | regular c mt oOk sOk =>
    refine ⟨c, mt, oOk, sOk, rfl, ?_⟩
    have hi : (0 : Int) < (c.length : Int) := by simpa [getFileSize, hf] using h
    exact_mod_cast hi
  | directory mt => simp [getFileSize, hf] at h
  | absent => simp [getFileSize, hf] at h

lemma getFileSize_of_regular (fs : FS) (p : String) (c : String) (mt : Int) (oOk sOk : Bool)
    (h : fs p = FNode.regular c mt oOk sOk) : getFileSize fs p = (c.length : Int) := by
  simp [getFileSize, h]

/-- The size-greater-than-zero branch of transferFile: for a nonempty
regular file the result is the 200 service (or 503 when open fails),
independent of the recursion continuation. -/
lemma transferStep_regular (cfg : Config) (env : Env) (fs : FS)
    (recur : String → Nat → TransferResult) (file : String) (noc : Nat)
    (c : String) (mt : Int) (oOk sOk : Bool)
    (h : fs file = FNode.regular c mt oOk sOk) (hlen : 0 < c.length) :
    transferStep cfg env fs recur file noc =
      if oOk then
        if noc = CONTENT_YES then
          if sOk then
            { resp := { statusLine := status200,
                        headerList := okHeaderList cfg env c.length mt, body := c },
              sentbytes := (c.length : Int), outcome := Outcome.ok }
          else
            { resp := { statusLine := status200,
                        headerList := okHeaderList cfg env c.length mt, body := "" },
              sentbytes := -1, outcome := Outcome.ok }
        else
          { resp := { statusLine := status200,
                      headerList := okHeaderList cfg env c.length mt, body := "" },
            sentbytes := 0, outcome := Outcome.ok }
      else
        { resp := err cfg status503 HTTP_BODY_503, sentbytes := 0,
          outcome := Outcome.serviceUnavailable } := by
  simp only [transferStep, h, hlen, if_true]

/-- Unfolding transferFileAux one level into the step function. -/
lemma transferAux_eq_step (cfg : Config) (env : Env) (fs : FS) (fuel : Nat) (file : String) (noc : Nat) :
    transferFileAux cfg env fs fuel file noc =
      transferStep cfg env fs
        (match fuel with
         | 0 => fun _ _ => { resp := err cfg status404 HTTP_BODY_404, sentbytes := 0,
                             outcome := Outcome.notFound }
         | Nat.succ f => transferFileAux cfg env fs f) file noc := by
  cases fuel <;> rfl

lemma transfer_regular (cfg : Config) (env : Env) (fs : FS) (fuel : Nat) (file : String) (noc : Nat)
    (c : String) (mt : Int) (oOk sOk : Bool)
    (h : fs file = FNode.regular c mt oOk sOk) (hlen : 0 < c.length) :
    transferFileAux cfg env fs fuel file noc =
      if oOk then
        if noc = CONTENT_YES then
          if sOk then
            { resp := { statusLine := status200,
                        headerList := okHeaderList cfg env c.length mt, body := c },
              sentbytes := (c.length : Int), outcome := Outcome.ok }
          else
            { resp := { statusLine := status200,
                        headerList := okHeaderList cfg env c.length mt, body := "" },
              sentbytes := -1, outcome := Outcome.ok }
        else
          { resp := { statusLine := status200,
                      headerList := okHeaderList cfg env c.length mt, body := "" },
            sentbytes := 0, outcome := Outcome.ok }
      else
        { resp := err cfg status503 HTTP_BODY_503, sentbytes := 0,
          outcome := Outcome.serviceUnavailable } := by
  rw [transferAux_eq_step]
  exact transferStep_regular cfg env fs _ file noc c mt oOk sOk h hlen

/-- Exhaustive case analysis of transferFile: the result is either the 200
service of a nonempty regular file located at the request path or at the
appended index path, or one of the three fixed error responses, each with
sentbytes 0. -/
lemma transfer_cases (cfg : Config) (env : Env) (fs : FS) (fuel : Nat) (file : String) (noc : Nat) :
    (∃ p c mt sOk,
        (p = file ∨ p = file ++ "/" ++ cfg.indexFile) ∧
        fs p = FNode.regular c mt true sOk ∧ 0 < c.length ∧
        transferFileAux cfg env fs fuel file noc =
          (if noc = CONTENT_YES then
            if sOk then
              { resp := { statusLine := status200,
                          headerList := okHeaderList cfg env c.length mt, body := c },
                sentbytes := (c.length : Int), outcome := Outcome.ok }
            else
              { resp := { statusLine := status200,
                          headerList := okHeaderList cfg env c.length mt, body := "" },
                sentbytes := -1, outcome := Outcome.ok }
          else
            { resp := { statusLine := status200,
                        headerList := okHeaderList cfg env c.length mt, body := "" },
              sentbytes := 0, outcome := Outcome.ok })) ∨
    ((transferFileAux cfg env fs fuel file noc).resp = err cfg status503 HTTP_BODY_503 ∧
      (transferFileAux cfg env fs fuel file noc).sentbytes = 0 ∧
      (transferFileAux cfg env fs fuel file noc).outcome = Outcome.serviceUnavailable) ∨
    ((transferFileAux cfg env fs fuel file noc).resp = err cfg status404 HTTP_BODY_404 ∧
      (transferFileAux cfg env fs fuel file noc).sentbytes = 0 ∧
      ((transferFileAux cfg env fs fuel file noc).outcome = Outcome.notFound ∨
        (transferFileAux cfg env fs fuel file noc).outcome = Outcome.notFoundNoIndex)) ∨
    ((transferFileAux cfg env fs fuel file noc).resp = err cfg status403 HTTP_BODY_403 ∧
      (transferFileAux cfg env fs fuel file noc).sentbytes = 0 ∧
      (transferFileAux cfg env fs fuel file noc).outcome = Outcome.directoryListingDenied) := by
  cases hf : fs file with
  | regular c mt oOk sOk =>
    by_cases hlen : 0 < c.length
    · have heq := transfer_regular cfg env fs fuel file noc c mt oOk sOk hf hlen
      cases oOk with
      | true =>
        left
        exact ⟨file, c, mt, sOk, Or.inl rfl, hf, hlen, by simpa using heq⟩
      | false =>
        right; left
        simp only [if_false, Bool.false_eq_true] at heq
        rw [heq]
        exact ⟨by trivial, by trivial, by trivial⟩
    · right; right; left
      rw [transferAux_eq_step]
      simp only [transferStep, hf, hlen, if_false]
      exact ⟨by trivial, by trivial, Or.inl (by trivial)⟩
  | directory dmt =>
    by_cases hen : cfg.serveIndexFileInDirectory = 1
    · by_cases hidx : 0 < getFileSize fs (file ++ "/" ++ cfg.indexFile)
      · obtain ⟨c2, mt2, o2, s2, hf2, hlen2⟩ := getFileSize_pos fs _ hidx
        cases fuel with
        | zero =>
          right; right; left
          rw [transferAux_eq_step]
          simp only [transferStep, hf, hen, hidx, if_true]
          exact ⟨by trivial, by trivial, Or.inl (by trivial)⟩
        | succ f =>
          have hstep : transferFileAux cfg env fs (Nat.succ f) file noc =
              transferFileAux cfg env fs f (file ++ "/" ++ cfg.indexFile) noc := by
            rw [transferAux_eq_step]
            simp only [transferStep, hf, hen, hidx, if_true]
          rw [hstep]
          have heq := transfer_regular cfg env fs f (file ++ "/" ++ cfg.indexFile) noc
            c2 mt2 o2 s2 hf2 hlen2
          cases o2 with
          | true =>
            left
            exact ⟨file ++ "/" ++ cfg.indexFile, c2, mt2, s2, Or.inr rfl, hf2, hlen2,
              by simpa using heq⟩
          | false =>
            right; left
            simp only [if_false, Bool.false_eq_true] at heq
            rw [heq]
            exact ⟨by trivial, by trivial, by trivial⟩
      · right; right; left
        rw [transferAux_eq_step]
        simp only [transferStep, hf, hen, hidx, if_true, if_false]
        exact ⟨by trivial, by trivial, Or.inr (by trivial)⟩
    · right; right; right
      rw [transferAux_eq_step]
      simp only [transferStep, hf, hen, if_false]
      exact ⟨by trivial, by trivial, by trivial⟩
  | absent =>
    right; right; left
    rw [transferAux_eq_step]
    simp only [transferStep, hf]
    exact ⟨by trivial, by trivial, Or.inl (by trivial)⟩

/-- Every transferFile outcome is one of the five file-serving classes;
in particular it is never badRequestNoHost or methodNotAllowed. -/
lemma transfer_outcome_classes (cfg : Config) (env : Env) (fs : FS) (fuel : Nat)
    (file : String) (noc : Nat) :
    (transferFileAux cfg env fs fuel file noc).outcome = Outcome.ok ∨
    (transferFileAux cfg env fs fuel file noc).outcome = Outcome.serviceUnavailable ∨
    (transferFileAux cfg env fs fuel file noc).outcome = Outcome.notFound ∨
    (transferFileAux cfg env fs fuel file noc).outcome = Outcome.notFoundNoIndex ∨
    (transferFileAux cfg env fs fuel file noc).outcome = Outcome.directoryListingDenied := by
  rcases transfer_cases cfg env fs fuel file noc with
    ⟨p, c, mt, sOk, hp, hreg, hlen, heq⟩ | ⟨h1, h2, ho⟩ | ⟨h1, h2, ho⟩ | ⟨h1, h2, ho⟩
  · left
    rw [heq]
    by_cases hn : noc = CONTENT_YES <;> by_cases hs : sOk = true <;> simp [hn, hs]
  · right; left; exact ho
  · rcases ho with ho | ho
    · right; right; left; exact ho
    · right; right; right; left; exact ho
  · right; right; right; right; exact ho

lemma handle_nohost (cfg : Config) (env : Env) (fs : FS) (buffer : String)
    (hh : strcasestrHit buffer "host:" = false) :
    handleHTTPRequest cfg env fs buffer =
      { response := err cfg status400 HTTP_BODY_400,
        outcome := Outcome.badRequestNoHost, logLines := [] } := by
  simp [handleHTTPRequest, hh]

lemma handle_GET (cfg : Config) (env : Env) (fs : FS) (buffer : String)
    (hh : strcasestrHit buffer "host:" = true) (hm : tok buffer 0 = "GET") :
    handleHTTPRequest cfg env fs buffer =
      { response := (transferFile cfg env fs (cfg.serverRoot ++ "/" ++ tok buffer 1) CONTENT_YES).resp,
        outcome := (transferFile cfg env fs (cfg.serverRoot ++ "/" ++ tok buffer 1) CONTENT_YES).outcome,
        logLines := [mkLogLine env (tok buffer 2) (tok buffer 0) (tok buffer 1)
          (transferFile cfg env fs (cfg.serverRoot ++ "/" ++ tok buffer 1) CONTENT_YES).sentbytes] } := by
  simp [handleHTTPRequest, hh, hm]

lemma handle_HEAD (cfg : Config) (env : Env) (fs : FS) (buffer : String)
    (hh : strcasestrHit buffer "host:" = true) (hm : tok buffer 0 = "HEAD") :
    handleHTTPRequest cfg env fs buffer =
      { response := (transferFile cfg env fs (cfg.serverRoot ++ "/" ++ tok buffer 1) CONTENT_NO).resp,
        outcome := (transferFile cfg env fs (cfg.serverRoot ++ "/" ++ tok buffer 1) CONTENT_NO).outcome,
        logLines := [mkLogLine env (tok buffer 2) (tok buffer 0) (tok buffer 1)
          (transferFile cfg env fs (cfg.serverRoot ++ "/" ++ tok buffer 1) CONTENT_NO).sentbytes] } := by
  have hne : tok buffer 0 ≠ "GET" := by rw [hm]; decide
  simp [handleHTTPRequest, hh, hm, hne]

lemma handle_other (cfg : Config) (env : Env) (fs : FS) (buffer : String)
    (hh : strcasestrHit buffer "host:" = true)
    (hm0 : tok buffer 0 ≠ "GET") (hm1 : tok buffer 0 ≠ "HEAD") :
    handleHTTPRequest cfg env fs buffer =
      { response := err cfg status405 HTTP_BODY_405,
        outcome := Outcome.methodNotAllowed,
        logLines := [mkLogLine env (tok buffer 2) (tok buffer 0) (tok buffer 1)
          (HTTP_BODY_405.length : Int)] } := by
  simp [handleHTTPRequest, hh, hm0, hm1]

lemma conn_notin_ok (cfg : Config) (env : Env) (sz : Nat) (mt : Int) :
    ("Connection", "close") ∉ okHeaderList cfg env sz mt := by
  intro hmem
  simp only [okHeaderList, List.mem_cons, List.not_mem_nil, or_false] at hmem
  rcases hmem with h | h | h | h <;>
    (simp only [Prod.mk.injEq] at h; exact absurd h.1 (by decide))

lemma hdr_notin_err (cfg : Config) (name v : String)
    (hn1 : name ≠ "Connection") (hn2 : name ≠ "Server") :
    (name, v) ∉ errHeaderList cfg := by
  intro hmem
  simp only [errHeaderList, List.mem_cons, List.not_mem_nil, or_false] at hmem
  rcases hmem with h | h
  · simp only [Prod.mk.injEq] at h
    exact hn1 h.1
  · simp only [Prod.mk.injEq] at h
    exact hn2 h.1

/-- Header contents of a transferFile response: a 200 response carries the
okHeaderList built from the metadata of an actually served regular file;
any other response carries exactly the Connection/Server pair. -/
lemma transfer_headers (cfg : Config) (env : Env) (fs : FS) (file : String) (noc : Nat) :
    ((transferFile cfg env fs file noc).resp.statusLine = status200 →
      ∃ p c mt sOk, fs p = FNode.regular c mt true sOk ∧
        (p = file ∨ p = file ++ "/" ++ cfg.indexFile) ∧
        (transferFile cfg env fs file noc).resp.headerList = okHeaderList cfg env c.length mt) ∧
    ((transferFile cfg env fs file noc).resp.statusLine ≠ status200 →
      (transferFile cfg env fs file noc).resp.headerList = errHeaderList cfg) := by
  rcases transfer_cases cfg env fs 1 file noc with
    ⟨p, c, mt, sOk, hp, hreg, hlen, heq⟩ | ⟨h1, h2, h3⟩ | ⟨h1, h2, h3⟩ | ⟨h1, h2, h3⟩
  · have hl : (transferFile cfg env fs file noc).resp.headerList = okHeaderList cfg env c.length mt := by
      show (transferFileAux cfg env fs 1 file noc).resp.headerList = _
      rw [heq]
      by_cases hn : noc = CONTENT_YES <;> cases sOk <;> simp [hn]
    have hst : (transferFile cfg env fs file noc).resp.statusLine = status200 := by
      show (transferFileAux cfg env fs 1 file noc).resp.statusLine = _
      rw [heq]
      by_cases hn : noc = CONTENT_YES <;> cases sOk <;> simp [hn]
    exact ⟨fun _ => ⟨p, c, mt, sOk, hreg, hp, hl⟩, fun hne => absurd hst hne⟩
  · constructor
    · intro h200
      rw [show (transferFile cfg env fs file noc).resp = _ from h1] at h200
      have h200x : status503 = status200 := h200
      exact absurd h200x (by decide)
    · intro _
      rw [show (transferFile cfg env fs file noc).resp = _ from h1]
      rfl
  · constructor
    · intro h200
      rw [show (transferFile cfg env fs file noc).resp = _ from h1] at h200
      have h200x : status404 = status200 := h200
      exact absurd h200x (by decide)
    · intro _
      rw [show (transferFile cfg env fs file noc).resp = _ from h1]
      rfl
  · constructor
    · intro h200
      rw [show (transferFile cfg env fs file noc).resp = _ from h1] at h200
      have h200x : status403 = status200 := h200
      exact absurd h200x (by decide)
    · intro _
      rw [show (transferFile cfg env fs file noc).resp = _ from h1]
      rfl

/-- Status classification of transferFile in terms of the probe of the
target path: NotFound gives 404; Directory gives 403 when index-serving
is off, and 404 when the appended index does not probe as a regular
file; a RegularFile of positive size whose open fails gives 503; a
RegularFile of size 0 gives 404. -/
lemma transfer_status_classification (cfg : Config) (env : Env) (fs : FS)
    (file : String) (noc : Nat) :
    (probe fs file = ProbeResult.NotFound →
      (transferFile cfg env fs file noc).resp.statusLine = status404) ∧
    (probe fs file = ProbeResult.Directory → cfg.serveIndexFileInDirectory ≠ 1 →
      (transferFile cfg env fs file noc).resp.statusLine = status403) ∧
    (probe fs file = ProbeResult.Directory → cfg.serveIndexFileInDirectory = 1 →
      (∀ sz mt, probe fs (file ++ "/" ++ cfg.indexFile) ≠ ProbeResult.RegularFile sz mt) →
      (transferFile cfg env fs file noc).resp.statusLine = status404) ∧
    (∀ sz mt, probe fs file = ProbeResult.RegularFile sz mt → 0 < sz →
      openFailsB fs file = true →
      (transferFile cfg env fs file noc).resp.statusLine = status503) ∧
    (∀ mt, probe fs file = ProbeResult.RegularFile 0 mt →
      (transferFile cfg env fs file noc).resp.statusLine = status404) := by
  cases hf : fs file with
  | regular c mt oOk sOk =>
    refine ⟨?_, ?_, ?_, ?_, ?_⟩
    · intro hp
      simp [probe, hf] at hp
    · intro hp
      simp [probe, hf] at hp
    · intro hp
      simp [probe, hf] at hp
    · intro sz mt2 hp hpos hof
      simp only [probe, hf, ProbeResult.RegularFile.injEq] at hp
      simp only [openFailsB, hf, Bool.not_eq_eq_eq_not, Bool.not_true] at hof
      have hlen : 0 < c.length := by
        rw [hp.1]
        exact hpos
      have heq := transfer_regular cfg env fs 1 file noc c mt oOk sOk hf hlen
      rw [hof] at heq
      simp only [Bool.false_eq_true, if_false] at heq
      show (transferFileAux cfg env fs 1 file noc).resp.statusLine = _
      rw [heq]
      rfl
    · intro mt2 hp
      simp only [probe, hf, ProbeResult.RegularFile.injEq] at hp
      show (transferFileAux cfg env fs 1 file noc).resp.statusLine = _
      rw [transferAux_eq_step]
      simp only [transferStep, hf, hp.1, Nat.lt_irrefl, if_false]
      rfl
  | directory dmt =>
    refine ⟨?_, ?_, ?_, ?_, ?_⟩
    · intro hp
      simp [probe, hf] at hp
    · intro _ hnen
      show (transferFileAux cfg env fs 1 file noc).resp.statusLine = _
      rw [transferAux_eq_step]
      simp only [transferStep, hf, hnen, if_false]
      rfl
    · intro _ hen hnoidx
      have hsize : ¬ 0 < getFileSize fs (file ++ "/" ++ cfg.indexFile) := by
        cases hg : fs (file ++ "/" ++ cfg.indexFile) with
        | regular c2 mt2 o2 s2 =>
          exact absurd (by simp [probe, hg]) (hnoidx c2.length mt2)
        | directory mt2 => simp [getFileSize, hg]
        | absent => simp [getFileSize, hg]
      show (transferFileAux cfg env fs 1 file noc).resp.statusLine = _
      rw [transferAux_eq_step]
      simp only [transferStep, hf, hen, if_true, hsize, if_false]
      rfl
    · intro sz mt2 hp
      simp [probe, hf] at hp
    · intro mt2 hp
      simp [probe, hf] at hp
  | absent =>
    refine ⟨?_, ?_, ?_, ?_, ?_⟩
    · intro _
      show (transferFileAux cfg env fs 1 file noc).resp.statusLine = _
      rw [transferAux_eq_step]
      simp only [transferStep, hf]
      rfl
    · intro hp
      simp [probe, hf] at hp
    · intro hp
      simp [probe, hf] at hp
    · intro sz mt2 hp
      simp [probe, hf] at hp
    · intro mt2 hp
      simp [probe, hf] at hp

/-- Non-200 transferFile responses carry the fixed HTML body matching
their status line, independently of the request method. -/
lemma transfer_error_bodies (cfg : Config) (env : Env) (fs : FS) (file : String) (noc : Nat) :
    ((transferFile cfg env fs file noc).resp.statusLine = status404 →
      (transferFile cfg env fs file noc).resp.body = HTTP_BODY_404) ∧
    ((transferFile cfg env fs file noc).resp.statusLine = status403 →
      (transferFile cfg env fs file noc).resp.body = HTTP_BODY_403) ∧
    ((transferFile cfg env fs file noc).resp.statusLine = status503 →
      (transferFile cfg env fs file noc).resp.body = HTTP_BODY_503) := by
  rcases transfer_cases cfg env fs 1 file noc with
    ⟨p, c, mt, sOk, hp, hreg, hlen, heq⟩ | ⟨h1, h2, h3⟩ | ⟨h1, h2, h3⟩ | ⟨h1, h2, h3⟩
  · have hst : (transferFile cfg env fs file noc).resp.statusLine = status200 := by
      show (transferFileAux cfg env fs 1 file noc).resp.statusLine = _
      rw [heq]
      by_cases hn : noc = CONTENT_YES <;> cases sOk <;> simp [hn]
    refine ⟨?_, ?_, ?_⟩ <;> intro hbad <;> rw [hst] at hbad <;> exact absurd hbad (by decide)
  · refine ⟨?_, ?_, ?_⟩ <;> intro hbad <;>
      rw [show (transferFile cfg env fs file noc).resp = _ from h1] at hbad ⊢
    · exact absurd (show status503 = status404 from hbad) (by decide)
    · exact absurd (show status503 = status403 from hbad) (by decide)
    · rfl
  · refine ⟨?_, ?_, ?_⟩ <;> intro hbad <;>
      rw [show (transferFile cfg env fs file noc).resp = _ from h1] at hbad ⊢
    · rfl
    · exact absurd (show status404 = status403 from hbad) (by decide)
    · exact absurd (show status404 = status503 from hbad) (by decide)
  · refine ⟨?_, ?_, ?_⟩ <;> intro hbad <;>
      rw [show (transferFile cfg env fs file noc).resp = _ from h1] at hbad ⊢
    · exact absurd (show status403 = status404 from hbad) (by decide)
    · rfl
    · exact absurd (show status403 = status503 from hbad) (by decide)

/-! ### Claim theorems -/

/-- Claim C9 (code-bug evidence): the accept loop of main
(threaded-server.c lines 488-507) calls pthread_create and immediately
pthread_join on every connection, so connection handling is fully
serialized: with two simultaneous pending connections, connection 1 is
accepted only after the worker of connection 0 has already completed,
so its completion does depend on the progress of connection 0. -/
theorem claim_C9_accept_loop_serializes :
    acceptLoop 2 = [ConnEvent.accepted 0, ConnEvent.completed 0,
                    ConnEvent.accepted 1, ConnEvent.completed 1] := rfl

/-- Claim C10: the value following the host: token never influences the
handler: any two read buffers that both contain the case-insensitive
host: token and agree on the first three whitespace-delimited tokens
(method, URL, protocol) produce identical handler results — identical
response bytes, outcome, and request-log lines. -/
theorem claim_C10_host_value_noninterference (cfg : Config) (env : Env) (fs : FS)
    (b1 b2 : String)
    (h1 : strcasestrHit b1 "host:" = true) (h2 : strcasestrHit b2 "host:" = true)
    (e0 : tok b1 0 = tok b2 0) (e1 : tok b1 1 = tok b2 1) (e2 : tok b1 2 = tok b2 2) :
    handleHTTPRequest cfg env fs b1 = handleHTTPRequest cfg env fs b2 := by
  simp [handleHTTPRequest, h1, h2, e0, e1, e2]

theorem claim_C10_witness :
    handleHTTPRequest cfg0 env0 fsFile "GET /f P Host: a" =
      handleHTTPRequest cfg0 env0 fsFile "GET /f P Host: bbbb" :=
  claim_C10_host_value_noninterference cfg0 env0 fsFile _ _
    (by decide) (by decide) (by decide) (by decide) (by decide)

/-- Claim C2: a read buffer without the case-insensitive host: token is
answered 400 with the fixed body, no log line, and the result is
independent of the filesystem (no dispatch, no lookup); with the token
present, method dispatch proceeds: the outcome is never
badRequestNoHost, GET and HEAD requests are answered by the file
transfer at serverRoot/URL, and any other method is answered 405. -/
theorem claim_C2_host_gate (cfg : Config) (env : Env) (fs : FS) (buffer : String) :
    (strcasestrHit buffer "host:" = false →
      (handleHTTPRequest cfg env fs buffer).response = err cfg status400 HTTP_BODY_400 ∧
      (handleHTTPRequest cfg env fs buffer).outcome = Outcome.badRequestNoHost ∧
      (handleHTTPRequest cfg env fs buffer).logLines = [] ∧
      ∀ fs2 : FS, handleHTTPRequest cfg env fs2 buffer = handleHTTPRequest cfg env fs buffer) ∧
    (strcasestrHit buffer "host:" = true →
      (handleHTTPRequest cfg env fs buffer).outcome ≠ Outcome.badRequestNoHost ∧
      (tok buffer 0 = "GET" →
        (handleHTTPRequest cfg env fs buffer).response =
          (transferFile cfg env fs (cfg.serverRoot ++ "/" ++ tok buffer 1) CONTENT_YES).resp) ∧
      (tok buffer 0 = "HEAD" →
        (handleHTTPRequest cfg env fs buffer).response =
          (transferFile cfg env fs (cfg.serverRoot ++ "/" ++ tok buffer 1) CONTENT_NO).resp) ∧
      (tok buffer 0 ≠ "GET" → tok buffer 0 ≠ "HEAD" →
        (handleHTTPRequest cfg env fs buffer).response = err cfg status405 HTTP_BODY_405)) := by
  constructor
  · intro hh
    rw [handle_nohost cfg env fs buffer hh]
    exact ⟨rfl, rfl, rfl, fun fs2 => by rw [handle_nohost cfg env fs2 buffer hh]⟩
  · intro hh
    refine ⟨?_, ?_, ?_, ?_⟩
    · by_cases hG : tok buffer 0 = "GET"
      · rw [handle_GET cfg env fs buffer hh hG]
        rcases transfer_outcome_classes cfg env fs 1
          (cfg.serverRoot ++ "/" ++ tok buffer 1) CONTENT_YES with
          ho | ho | ho | ho | ho <;>
          simp [transferFile, ho]
      · by_cases hH : tok buffer 0 = "HEAD"
        · rw [handle_HEAD cfg env fs buffer hh hH]
          rcases transfer_outcome_classes cfg env fs 1
            (cfg.serverRoot ++ "/" ++ tok buffer 1) CONTENT_NO with
            ho | ho | ho | ho | ho <;>
            simp [transferFile, ho]
        · rw [handle_other cfg env fs buffer hh hG hH]
          simp
    · intro hG
      rw [handle_GET cfg env fs buffer hh hG]
    · intro hH
      rw [handle_HEAD cfg env fs buffer hh hH]
    · intro hG hH
      rw [handle_other cfg env fs buffer hh hG hH]

theorem claim_C2_witness :
    (handleHTTPRequest cfg0 env0 fsFile "GET /f P").response =
        err cfg0 status400 HTTP_BODY_400 ∧
      (handleHTTPRequest cfg0 env0 fsFile "GET /f P Host: h").outcome ≠
        Outcome.badRequestNoHost := by
  constructor
  · exact ((claim_C2_host_gate cfg0 env0 fsFile "GET /f P").1 (by decide)).1
  · exact ((claim_C2_host_gate cfg0 env0 fsFile "GET /f P Host: h").2 (by decide)).1

/-- Claim C8 counterexample: a request whose buffer lacks the host: token
is rejected with 400 but emits no log line at all (the claim demands
exactly one for every completed or rejected request), and the log
timestamp (asctime of localtime) differs from the Date header format
(HTTP-date of gmtime) even when both clocks read the same instant. -/
theorem claim_C8_counterexample :
    (handleHTTPRequest cfg0 env0 fsAbsent "GET / P").logLines = [] ∧
      getLogTime env0 ≠ httpHeaderTime (env0.gmtime env0.now) := by
  decide

/-- Claim C8 (amended): a request dispatched past the host check emits
exactly one log line of the form [timestamp] protocol method url bytes,
where the timestamp is the asctime rendering of the local time (not the
UTC HTTP-date used by the Date header); a request rejected for the
missing host token emits no log line. -/
theorem claim_C8_logging (cfg : Config) (env : Env) (fs : FS) (buffer : String) :
    (strcasestrHit buffer "host:" = false →
      (handleHTTPRequest cfg env fs buffer).logLines = []) ∧
    (strcasestrHit buffer "host:" = true →
      ∃ n : Int, (handleHTTPRequest cfg env fs buffer).logLines =
        ["[" ++ asctimeFmt (env.localtime env.now) ++ "] " ++ tok buffer 2 ++ " " ++
          tok buffer 0 ++ " " ++ tok buffer 1 ++ " " ++ toString n]) := by
  constructor
  · intro hh
    rw [handle_nohost cfg env fs buffer hh]
  · intro hh
    by_cases hG : tok buffer 0 = "GET"
    · exact ⟨(transferFile cfg env fs (cfg.serverRoot ++ "/" ++ tok buffer 1) CONTENT_YES).sentbytes,
        by rw [handle_GET cfg env fs buffer hh hG]; rfl⟩
    · by_cases hH : tok buffer 0 = "HEAD"
      · exact ⟨(transferFile cfg env fs (cfg.serverRoot ++ "/" ++ tok buffer 1) CONTENT_NO).sentbytes,
          by rw [handle_HEAD cfg env fs buffer hh hH]; rfl⟩
      · exact ⟨(HTTP_BODY_405.length : Int),
          by rw [handle_other cfg env fs buffer hh hG hH]; rfl⟩

theorem claim_C8_witness :
    ∃ n : Int, (handleHTTPRequest cfg0 env0 fsFile "GET /f P Host: h").logLines =
      ["[" ++ asctimeFmt (env0.localtime env0.now) ++ "] " ++ tok "GET /f P Host: h" 2 ++ " " ++
        tok "GET /f P Host: h" 0 ++ " " ++ tok "GET /f P Host: h" 1 ++ " " ++ toString n] :=
  (claim_C8_logging cfg0 env0 fsFile "GET /f P Host: h").2 (by decide)

/-- Claim C3: a 200 response carries exactly the headers Date (current
time in HTTP-date format), Last-Modified (the served file modification
time, same format), Content-Length (the exact byte size of the served
file) and Server, in that order, and no Connection: close; every non-200
response carries exactly Connection: close and Server, and none of Date,
Last-Modified or Content-Length. -/
theorem claim_C3_headers (cfg : Config) (env : Env) (fs : FS) (buffer : String) :
    ((handleHTTPRequest cfg env fs buffer).response.statusLine = status200 →
      ∃ p c mt sOk, fs p = FNode.regular c mt true sOk ∧
        (handleHTTPRequest cfg env fs buffer).response.headerList =
          okHeaderList cfg env c.length mt ∧
        ("Connection", "close") ∉ (handleHTTPRequest cfg env fs buffer).response.headerList) ∧
    ((handleHTTPRequest cfg env fs buffer).response.statusLine ≠ status200 →
      (handleHTTPRequest cfg env fs buffer).response.headerList = errHeaderList cfg ∧
      ∀ v : String,
        ("Date", v) ∉ (handleHTTPRequest cfg env fs buffer).response.headerList ∧
        ("Last-Modified", v) ∉ (handleHTTPRequest cfg env fs buffer).response.headerList ∧
        ("Content-Length", v) ∉ (handleHTTPRequest cfg env fs buffer).response.headerList) := by
  by_cases hh : strcasestrHit buffer "host:" = true
  · by_cases hG : tok buffer 0 = "GET"
    · rw [handle_GET cfg env fs buffer hh hG]
      obtain ⟨hA, hB⟩ := transfer_headers cfg env fs (cfg.serverRoot ++ "/" ++ tok buffer 1) CONTENT_YES
      constructor
      · intro h200
        obtain ⟨p, c, mt, sOk, hreg, hp, hl⟩ := hA h200
        exact ⟨p, c, mt, sOk, hreg, hl, by rw [hl]; exact conn_notin_ok cfg env c.length mt⟩
      · intro hne
        have hl := hB hne
        refine ⟨hl, fun v => ⟨?_, ?_, ?_⟩⟩ <;> rw [hl]
        · exact hdr_notin_err cfg "Date" v (by decide) (by decide)
        · exact hdr_notin_err cfg "Last-Modified" v (by decide) (by decide)
        · exact hdr_notin_err cfg "Content-Length" v (by decide) (by decide)
    · by_cases hH : tok buffer 0 = "HEAD"
      · rw [handle_HEAD cfg env fs buffer hh hH]
        obtain ⟨hA, hB⟩ := transfer_headers cfg env fs (cfg.serverRoot ++ "/" ++ tok buffer 1) CONTENT_NO
        constructor
        · intro h200
          obtain ⟨p, c, mt, sOk, hreg, hp, hl⟩ := hA h200
          exact ⟨p, c, mt, sOk, hreg, hl, by rw [hl]; exact conn_notin_ok cfg env c.length mt⟩
        · intro hne
          have hl := hB hne
          refine ⟨hl, fun v => ⟨?_, ?_, ?_⟩⟩ <;> rw [hl]
          · exact hdr_notin_err cfg "Date" v (by decide) (by decide)
          · exact hdr_notin_err cfg "Last-Modified" v (by decide) (by decide)
          · exact hdr_notin_err cfg "Content-Length" v (by decide) (by decide)
      · rw [handle_other cfg env fs buffer hh hG hH]
        constructor
        · intro h200
          have h200x : status405 = status200 := h200
          exact absurd h200x (by decide)
        · intro _
          refine ⟨rfl, fun v => ⟨?_, ?_, ?_⟩⟩
          · exact hdr_notin_err cfg "Date" v (by decide) (by decide)
          · exact hdr_notin_err cfg "Last-Modified" v (by decide) (by decide)
          · exact hdr_notin_err cfg "Content-Length" v (by decide) (by decide)
  · rw [Bool.not_eq_true] at hh
    rw [handle_nohost cfg env fs buffer hh]
    constructor
    · intro h200
      have h200x : status400 = status200 := h200
      exact absurd h200x (by decide)
    · intro _
      refine ⟨rfl, fun v => ⟨?_, ?_, ?_⟩⟩
      · exact hdr_notin_err cfg "Date" v (by decide) (by decide)
      · exact hdr_notin_err cfg "Last-Modified" v (by decide) (by decide)
      · exact hdr_notin_err cfg "Content-Length" v (by decide) (by decide)

theorem claim_C3_witness :
    (∃ p c mt sOk, fsFile p = FNode.regular c mt true sOk ∧
      (handleHTTPRequest cfg0 env0 fsFile "GET /f P Host: h").response.headerList =
        okHeaderList cfg0 env0 c.length mt ∧
      ("Connection", "close") ∉
        (handleHTTPRequest cfg0 env0 fsFile "GET /f P Host: h").response.headerList) ∧
    (handleHTTPRequest cfg0 env0 fsAbsent "GET /g P Host: h").response.headerList =
      errHeaderList cfg0 := by
  constructor
  · exact (claim_C3_headers cfg0 env0 fsFile "GET /f P Host: h").1 (by decide)
  · exact ((claim_C3_headers cfg0 env0 fsAbsent "GET /g P Host: h").2 (by decide)).1

set_option maxRecDepth 8000 in
/-- Claim C7 counterexample: a GET for a nonexistent path makes
transferFile return sentbytes 0 even though it writes the fixed 404 HTML
body, whose byte count is not 0 — so the returned value does not equal
the count of bytes written for the body, refuting the claim as stated. -/
theorem claim_C7_counterexample :
    (transferFile cfg0 env0 fsAbsent "/r//g" CONTENT_YES).sentbytes = 0 ∧
    (transferFile cfg0 env0 fsAbsent "/r//g" CONTENT_YES).resp.body = HTTP_BODY_404 ∧
    (HTTP_BODY_404.length : Int) ≠ 0 := by
  refine ⟨by decide, rfl, by decide⟩

/-- Claim C7 (amended): the transferFile return value counts only
file-content bytes: for a 200 GET it is the file size on sendfile
success and -1 on sendfile failure; it is 0 for HEAD and for every
non-200 response, even though non-200 responses do write their fixed
HTML body (which is never counted). -/
theorem claim_C7_sentbytes (cfg : Config) (env : Env) (fs : FS) (file : String) (noc : Nat) :
    ((transferFile cfg env fs file noc).resp.statusLine = status200 → noc = CONTENT_YES →
      ∃ p c mt sOk, fs p = FNode.regular c mt true sOk ∧
        (p = file ∨ p = file ++ "/" ++ cfg.indexFile) ∧
        (transferFile cfg env fs file noc).sentbytes = (if sOk then (c.length : Int) else -1) ∧
        (sOk = true → (transferFile cfg env fs file noc).resp.body = c)) ∧
    ((transferFile cfg env fs file noc).resp.statusLine ≠ status200 →
      (transferFile cfg env fs file noc).sentbytes = 0 ∧
      ((transferFile cfg env fs file noc).resp.body = HTTP_BODY_503 ∨
        (transferFile cfg env fs file noc).resp.body = HTTP_BODY_404 ∨
        (transferFile cfg env fs file noc).resp.body = HTTP_BODY_403)) ∧
    (noc = CONTENT_NO → (transferFile cfg env fs file noc).sentbytes = 0) ∧
    ((transferFile cfg env fs file noc).sentbytes = -1 →
      (transferFile cfg env fs file noc).resp.statusLine = status200 ∧ noc = CONTENT_YES ∧
      (transferFile cfg env fs file noc).resp.body = "") := by
  rcases transfer_cases cfg env fs 1 file noc with
    ⟨p, c, mt, sOk, hp, hreg, hlen, heq⟩ | ⟨h1, h2, h3⟩ | ⟨h1, h2, h3⟩ | ⟨h1, h2, h3⟩
  · have htf : transferFile cfg env fs file noc = transferFileAux cfg env fs 1 file noc := rfl
    by_cases hn : noc = CONTENT_YES
    · cases sOk with
      | true =>
        have hr : transferFile cfg env fs file noc =
            { resp := { statusLine := status200,
                        headerList := okHeaderList cfg env c.length mt, body := c },
              sentbytes := (c.length : Int), outcome := Outcome.ok } := by
          rw [htf, heq, if_pos hn, if_pos rfl]
        refine ⟨?_, ?_, ?_, ?_⟩
        · intro _ _
          exact ⟨p, c, mt, true, hreg, hp, by rw [hr]; simp, fun _ => by rw [hr]⟩
        · intro hne
          exact absurd (by rw [hr] : (transferFile cfg env fs file noc).resp.statusLine = status200) hne
        · intro hno
          rw [hn] at hno
          exact absurd hno (by decide)
        · intro hm1
          rw [hr] at hm1
          have hm1x : (c.length : Int) = -1 := hm1
          have hge : (0 : Int) ≤ (c.length : Int) := Int.natCast_nonneg c.length
          omega
      | false =>
        have hr : transferFile cfg env fs file noc =
            { resp := { statusLine := status200,
                        headerList := okHeaderList cfg env c.length mt, body := "" },
              sentbytes := -1, outcome := Outcome.ok } := by
          rw [htf, heq, if_pos hn]
          simp
        refine ⟨?_, ?_, ?_, ?_⟩
        · intro _ _
          refine ⟨p, c, mt, false, hreg, hp, by rw [hr]; simp, ?_⟩
          intro hcon
          exact absurd hcon (by decide)
        · intro hne
          exact absurd (by rw [hr] : (transferFile cfg env fs file noc).resp.statusLine = status200) hne
        · intro hno
          rw [hn] at hno
          exact absurd hno (by decide)
        · intro _
          exact ⟨by rw [hr], hn, by rw [hr]⟩
    · have hr : transferFile cfg env fs file noc =
          { resp := { statusLine := status200,
                      headerList := okHeaderList cfg env c.length mt, body := "" },
            sentbytes := 0, outcome := Outcome.ok } := by
        rw [htf, heq, if_neg hn]
      refine ⟨?_, ?_, ?_, ?_⟩
      · intro _ hny
        exact absurd hny hn
      · intro hne
        exact absurd (by rw [hr] : (transferFile cfg env fs file noc).resp.statusLine = status200) hne
      · intro _
        rw [hr]
      · intro hm1
        rw [hr] at hm1
        have hm1x : (0 : Int) = -1 := hm1
        exact absurd hm1x (by decide)
  · refine ⟨?_, ?_, ?_, ?_⟩
    · intro h200 _
      rw [show (transferFile cfg env fs file noc).resp = _ from h1] at h200
      have h200x : status503 = status200 := h200
      exact absurd h200x (by decide)
    · intro _
      exact ⟨h2, Or.inl (by rw [show (transferFile cfg env fs file noc).resp = _ from h1]; rfl)⟩
    · intro _
      exact h2
    · intro hm1
      rw [show (transferFile cfg env fs file noc).sentbytes = 0 from h2] at hm1
      exact absurd hm1 (by decide)
  · refine ⟨?_, ?_, ?_, ?_⟩
    · intro h200 _
      rw [show (transferFile cfg env fs file noc).resp = _ from h1] at h200
      have h200x : status404 = status200 := h200
      exact absurd h200x (by decide)
    · intro _
      exact ⟨h2, Or.inr (Or.inl (by rw [show (transferFile cfg env fs file noc).resp = _ from h1]; rfl))⟩
    · intro _
      exact h2
    · intro hm1
      rw [show (transferFile cfg env fs file noc).sentbytes = 0 from h2] at hm1
      exact absurd hm1 (by decide)
  · refine ⟨?_, ?_, ?_, ?_⟩
    · intro h200 _
      rw [show (transferFile cfg env fs file noc).resp = _ from h1] at h200
      have h200x : status403 = status200 := h200
      exact absurd h200x (by decide)
    · intro _
      exact ⟨h2, Or.inr (Or.inr (by rw [show (transferFile cfg env fs file noc).resp = _ from h1]; rfl))⟩
    · intro _
      exact h2
    · intro hm1
      rw [show (transferFile cfg env fs file noc).sentbytes = 0 from h2] at hm1
      exact absurd hm1 (by decide)

theorem claim_C7_witness :
    ∃ p c mt sOk, fsFile p = FNode.regular c mt true sOk ∧
      (p = "/r//f" ∨ p = "/r//f" ++ "/" ++ cfg0.indexFile) ∧
      (transferFile cfg0 env0 fsFile "/r//f" CONTENT_YES).sentbytes =
        (if sOk then (c.length : Int) else -1) ∧
      (sOk = true → (transferFile cfg0 env0 fsFile "/r//f" CONTENT_YES).resp.body = c) :=
  (claim_C7_sentbytes cfg0 env0 fsFile "/r//f" CONTENT_YES).1 (by decide) (by decide)

set_option maxRecDepth 8000 in
/-- Claim C1 counterexample: a path that probes as a RegularFile (of size
0) whose open would fail is answered 404, not 503, so the clause
"RegularFile but opening fails gives 503" is false as stated. -/
theorem claim_C1_counterexample :
    probe fsEmptyNoOpen ("/r" ++ "/" ++ "/z") = ProbeResult.RegularFile 0 7 ∧
    openFailsB fsEmptyNoOpen ("/r" ++ "/" ++ "/z") = true ∧
    (handleHTTPRequest cfg0 env0 fsEmptyNoOpen "GET /z P Host: h").response.statusLine =
      status404 ∧
    status404 ≠ status503 := by
  decide

/-- Claim C1 (amended): with the host token present, for GET and HEAD the
status is classified from the probe of serverRoot/URL — NotFound gives
404, Directory with index-serving disabled gives 403, Directory with
index-serving enabled whose appended index does not probe as a regular
file gives 404, a RegularFile of positive size whose open fails gives
503, and a RegularFile of size 0 gives 404 (this last clause is what the
counterexample forces: the original claim promised 503 for every
RegularFile with failing open); any other method is answered 405 without
consulting the filesystem. -/
theorem claim_C1_classification (cfg : Config) (env : Env) (fs : FS) (buffer : String)
    (hh : strcasestrHit buffer "host:" = true) :
    ((tok buffer 0 = "GET" ∨ tok buffer 0 = "HEAD") →
      (probe fs (cfg.serverRoot ++ "/" ++ tok buffer 1) = ProbeResult.NotFound →
        (handleHTTPRequest cfg env fs buffer).response.statusLine = status404) ∧
      (probe fs (cfg.serverRoot ++ "/" ++ tok buffer 1) = ProbeResult.Directory →
        cfg.serveIndexFileInDirectory ≠ 1 →
        (handleHTTPRequest cfg env fs buffer).response.statusLine = status403) ∧
      (probe fs (cfg.serverRoot ++ "/" ++ tok buffer 1) = ProbeResult.Directory →
        cfg.serveIndexFileInDirectory = 1 →
        (∀ sz mt, probe fs (cfg.serverRoot ++ "/" ++ tok buffer 1 ++ "/" ++ cfg.indexFile) ≠
          ProbeResult.RegularFile sz mt) →
        (handleHTTPRequest cfg env fs buffer).response.statusLine = status404) ∧
      (∀ sz mt, probe fs (cfg.serverRoot ++ "/" ++ tok buffer 1) = ProbeResult.RegularFile sz mt →
        0 < sz → openFailsB fs (cfg.serverRoot ++ "/" ++ tok buffer 1) = true →
        (handleHTTPRequest cfg env fs buffer).response.statusLine = status503) ∧
      (∀ mt, probe fs (cfg.serverRoot ++ "/" ++ tok buffer 1) = ProbeResult.RegularFile 0 mt →
        (handleHTTPRequest cfg env fs buffer).response.statusLine = status404)) ∧
    (tok buffer 0 ≠ "GET" → tok buffer 0 ≠ "HEAD" →
      (handleHTTPRequest cfg env fs buffer).response.statusLine = status405 ∧
      ∀ fs2 : FS, handleHTTPRequest cfg env fs2 buffer = handleHTTPRequest cfg env fs buffer) := by
  constructor
  · intro hm
    rcases hm with hG | hH
    · rw [handle_GET cfg env fs buffer hh hG]
      exact transfer_status_classification cfg env fs (cfg.serverRoot ++ "/" ++ tok buffer 1)
        CONTENT_YES
    · rw [handle_HEAD cfg env fs buffer hh hH]
      exact transfer_status_classification cfg env fs (cfg.serverRoot ++ "/" ++ tok buffer 1)
        CONTENT_NO
  · intro hG hH
    rw [handle_other cfg env fs buffer hh hG hH]
    exact ⟨rfl, fun fs2 => by rw [handle_other cfg env fs2 buffer hh hG hH]⟩

theorem claim_C1_witness :
    (handleHTTPRequest cfg0 env0 fsAbsent "GET /g P Host: h").response.statusLine = status404 ∧
    (handleHTTPRequest cfg0 env0 fsAbsent "POST /g P Host: h").response.statusLine = status405 := by
  constructor
  · exact ((claim_C1_classification cfg0 env0 fsAbsent "GET /g P Host: h" (by decide)).1
      (Or.inl (by decide))).1 (by decide)
  · exact ((claim_C1_classification cfg0 env0 fsAbsent "POST /g P Host: h" (by decide)).2
      (by decide) (by decide)).1

/-- Claim C5 counterexample: a GET for an existing, readable, zero-byte
regular file is answered 404, not 200 with Content-Length 0. -/
theorem claim_C5_counterexample :
    fsEmptyFile "/r//e" = FNode.regular "" 2 true true ∧
    (handleHTTPRequest cfg0 env0 fsEmptyFile "GET /e P Host: h").response.statusLine =
      status404 ∧
    status404 ≠ status200 := by
  decide

/-- Claim C5 (amended): the lstat probe does classify every existing
regular file as RegularFile regardless of size, but the transfer engine
branches on size greater than 0, so a GET whose resolved path is a
zero-byte regular file (readable or not) is answered with the full fixed
404 response rather than 200. -/
theorem claim_C5_zero_size (fs : FS) (p : String) (c : String) (mt : Int) (oOk sOk : Bool)
    (h : fs p = FNode.regular c mt oOk sOk) :
    probe fs p = ProbeResult.RegularFile c.length mt ∧
    (∀ cfg env buffer, strcasestrHit buffer "host:" = true → tok buffer 0 = "GET" →
      cfg.serverRoot ++ "/" ++ tok buffer 1 = p → c.length = 0 →
      (handleHTTPRequest cfg env fs buffer).response = err cfg status404 HTTP_BODY_404) := by
  constructor
  · simp [probe, h]
  · intro cfg env buffer hh hG hpath hlen
    rw [handle_GET cfg env fs buffer hh hG]
    show (transferFileAux cfg env fs 1 (cfg.serverRoot ++ "/" ++ tok buffer 1) CONTENT_YES).resp = _
    rw [transferAux_eq_step, hpath]
    simp only [transferStep, h, hlen, Nat.lt_irrefl, if_false]

theorem claim_C5_witness :
    probe fsEmptyFile "/r//e" = ProbeResult.RegularFile 0 2 ∧
    (handleHTTPRequest cfg0 env0 fsEmptyFile "GET /e P Host: h").response =
      err cfg0 status404 HTTP_BODY_404 := by
  have h := claim_C5_zero_size fsEmptyFile "/r//e" "" 2 true true (by decide)
  exact ⟨h.1, h.2 cfg0 env0 "GET /e P Host: h" (by decide) (by decide) (by decide) (by decide)⟩

/-- Claim C6 counterexample: a HEAD request resolving to an existing,
readable regular file of size 0 is answered 404, not 200, so the claim
as stated (200 for every readable regular file) fails. -/
theorem claim_C6_counterexample :
    fsEmptyFile "/r//e" = FNode.regular "" 2 true true ∧
    (handleHTTPRequest cfg0 env0 fsEmptyFile "HEAD /e P Host: h").response.statusLine =
      status404 ∧
    status404 ≠ status200 := by
  decide

/-- Claim C6 (amended): a HEAD request whose resolved path is a readable
regular file of positive size is answered 200 with a header block
identical to the one the GET transfer produces and an empty body; and
every non-200 HEAD response still carries the fixed HTML body of its
status (error bodies are not suppressed for HEAD). -/
theorem claim_C6_head (cfg : Config) (env : Env) (fs : FS) (buffer : String)
    (hh : strcasestrHit buffer "host:" = true) (hm : tok buffer 0 = "HEAD") :
    (∀ c mt sOk, fs (cfg.serverRoot ++ "/" ++ tok buffer 1) = FNode.regular c mt true sOk →
      0 < c.length →
      (handleHTTPRequest cfg env fs buffer).response.statusLine = status200 ∧
      (handleHTTPRequest cfg env fs buffer).response.headerList =
        (transferFile cfg env fs (cfg.serverRoot ++ "/" ++ tok buffer 1) CONTENT_YES).resp.headerList ∧
      (handleHTTPRequest cfg env fs buffer).response.body = "") ∧
    ((handleHTTPRequest cfg env fs buffer).response.statusLine = status404 →
      (handleHTTPRequest cfg env fs buffer).response.body = HTTP_BODY_404) ∧
    ((handleHTTPRequest cfg env fs buffer).response.statusLine = status403 →
      (handleHTTPRequest cfg env fs buffer).response.body = HTTP_BODY_403) ∧
    ((handleHTTPRequest cfg env fs buffer).response.statusLine = status503 →
      (handleHTTPRequest cfg env fs buffer).response.body = HTTP_BODY_503) := by
  rw [handle_HEAD cfg env fs buffer hh hm]
  constructor
  · intro c mt sOk hreg hlen
    have hN := transfer_regular cfg env fs 1 (cfg.serverRoot ++ "/" ++ tok buffer 1)
      CONTENT_NO c mt true sOk hreg hlen
    have hY := transfer_regular cfg env fs 1 (cfg.serverRoot ++ "/" ++ tok buffer 1)
      CONTENT_YES c mt true sOk hreg hlen
    simp only [if_true, if_pos rfl] at hN hY
    rw [if_neg (by decide : ¬ CONTENT_NO = CONTENT_YES)] at hN
    refine ⟨?_, ?_, ?_⟩
    · show (transferFileAux cfg env fs 1 (cfg.serverRoot ++ "/" ++ tok buffer 1)
        CONTENT_NO).resp.statusLine = _
      rw [hN]
    · show (transferFileAux cfg env fs 1 (cfg.serverRoot ++ "/" ++ tok buffer 1)
        CONTENT_NO).resp.headerList = _
      rw [hN]
      show okHeaderList cfg env c.length mt =
        (transferFileAux cfg env fs 1 (cfg.serverRoot ++ "/" ++ tok buffer 1)
          CONTENT_YES).resp.headerList
      rw [hY]
      cases sOk <;> rfl
    · show (transferFileAux cfg env fs 1 (cfg.serverRoot ++ "/" ++ tok buffer 1)
        CONTENT_NO).resp.body = _
      rw [hN]
  · exact transfer_error_bodies cfg env fs (cfg.serverRoot ++ "/" ++ tok buffer 1) CONTENT_NO

theorem claim_C6_witness :
    (handleHTTPRequest cfg0 env0 fsFile "HEAD /f P Host: h").response.statusLine = status200 ∧
    (handleHTTPRequest cfg0 env0 fsFile "HEAD /f P Host: h").response.headerList =
      (transferFile cfg0 env0 fsFile
        (cfg0.serverRoot ++ "/" ++ tok "HEAD /f P Host: h" 1) CONTENT_YES).resp.headerList ∧
    (handleHTTPRequest cfg0 env0 fsFile "HEAD /f P Host: h").response.body = "" :=
  (claim_C6_head cfg0 env0 fsFile "HEAD /f P Host: h" (by decide) (by decide)).1
    "hi" 5 true (by decide) (by decide)

set_option maxRecDepth 8000 in
/-- Claim C4 counterexample: with index-serving enabled, a directory
whose index file exists as a (zero-byte) regular file is answered
without any recursion into the index path — the recursion count is 0,
not the promised exactly-once. -/
theorem claim_C4_counterexample :
    cfg0.serveIndexFileInDirectory = 1 ∧
    fsDirEmptyIdx ("/r" ++ "/" ++ "/d") = FNode.directory 0 ∧
    fsDirEmptyIdx ("/r" ++ "/" ++ "/d" ++ "/" ++ cfg0.indexFile) =
      FNode.regular "" 3 true true ∧
    transferCalls cfg0 fsDirEmptyIdx 1 ("/r" ++ "/" ++ "/d") = 0 := by
  decide

/-- Claim C4 (amended): for a URL resolving to a directory with
index-serving enabled and the index present as a regular file, the full
response equals the response to requesting the index file directly by
URL with the same method; when the index has positive size the recursion
into the index path happens exactly once and the index is never treated
as a directory to recurse further; when the index is a zero-byte regular
file the 404 is emitted inline with no recursion (the response is still
identical to the direct request). -/
theorem claim_C4_index_equiv (cfg : Config) (env : Env) (fs : FS) (u m b1 b2 : String)
    (dmt : Int) (c : String) (mt : Int) (oOk sOk : Bool)
    (h1 : strcasestrHit b1 "host:" = true) (h2 : strcasestrHit b2 "host:" = true)
    (hm1 : tok b1 0 = m) (hm2 : tok b2 0 = m) (hGH : m = "GET" ∨ m = "HEAD")
    (hu1 : tok b1 1 = u) (hu2 : tok b2 1 = u ++ "/" ++ cfg.indexFile)
    (hdir : fs (cfg.serverRoot ++ "/" ++ u) = FNode.directory dmt)
    (hen : cfg.serveIndexFileInDirectory = 1)
    (hidx : fs (cfg.serverRoot ++ "/" ++ u ++ "/" ++ cfg.indexFile) =
      FNode.regular c mt oOk sOk) :
    (handleHTTPRequest cfg env fs b1).response = (handleHTTPRequest cfg env fs b2).response ∧
    (0 < c.length →
      transferCalls cfg fs 1 (cfg.serverRoot ++ "/" ++ u) = 1 ∧
      probe fs (cfg.serverRoot ++ "/" ++ u ++ "/" ++ cfg.indexFile) ≠ ProbeResult.Directory ∧
      (∀ fuel, transferCalls cfg fs fuel (cfg.serverRoot ++ "/" ++ u ++ "/" ++ cfg.indexFile) = 0)) ∧
    (c.length = 0 → transferCalls cfg fs 1 (cfg.serverRoot ++ "/" ++ u) = 0) := by
  have hpath : cfg.serverRoot ++ "/" ++ (u ++ "/" ++ cfg.indexFile) =
      cfg.serverRoot ++ "/" ++ u ++ "/" ++ cfg.indexFile := by
    simp [String.append_assoc]
  have hsz : getFileSize fs (cfg.serverRoot ++ "/" ++ u ++ "/" ++ cfg.indexFile) =
      (c.length : Int) := getFileSize_of_regular fs _ c mt oOk sOk hidx
  have hmain : ∀ noc : Nat,
      transferFile cfg env fs (cfg.serverRoot ++ "/" ++ u) noc =
        transferFile cfg env fs (cfg.serverRoot ++ "/" ++ u ++ "/" ++ cfg.indexFile) noc ∨
      ((transferFile cfg env fs (cfg.serverRoot ++ "/" ++ u) noc).resp =
          err cfg status404 HTTP_BODY_404 ∧
        (transferFile cfg env fs (cfg.serverRoot ++ "/" ++ u ++ "/" ++ cfg.indexFile) noc).resp =
          err cfg status404 HTTP_BODY_404) := by
    intro noc
    by_cases hpos : 0 < c.length
    · left
      have hcast : 0 < getFileSize fs (cfg.serverRoot ++ "/" ++ u ++ "/" ++ cfg.indexFile) := by
        rw [hsz]
        exact_mod_cast hpos
      have hl : transferFile cfg env fs (cfg.serverRoot ++ "/" ++ u) noc =
          transferFileAux cfg env fs 0 (cfg.serverRoot ++ "/" ++ u ++ "/" ++ cfg.indexFile) noc := by
        show transferFileAux cfg env fs 1 (cfg.serverRoot ++ "/" ++ u) noc = _
        rw [transferAux_eq_step]
        simp only [transferStep, hdir, hen, if_true, hcast]
      rw [hl]
      rw [transfer_regular cfg env fs 0 (cfg.serverRoot ++ "/" ++ u ++ "/" ++ cfg.indexFile) noc
        c mt oOk sOk hidx hpos]
      rw [show transferFile cfg env fs (cfg.serverRoot ++ "/" ++ u ++ "/" ++ cfg.indexFile) noc =
        transferFileAux cfg env fs 1 (cfg.serverRoot ++ "/" ++ u ++ "/" ++ cfg.indexFile) noc
        from rfl]
      rw [transfer_regular cfg env fs 1 (cfg.serverRoot ++ "/" ++ u ++ "/" ++ cfg.indexFile) noc
        c mt oOk sOk hidx hpos]
    · right
      have hzero : c.length = 0 := Nat.eq_zero_of_not_pos hpos
      have hncast : ¬ 0 < getFileSize fs (cfg.serverRoot ++ "/" ++ u ++ "/" ++ cfg.indexFile) := by
        rw [hsz, hzero]
        decide
      constructor
      · show (transferFileAux cfg env fs 1 (cfg.serverRoot ++ "/" ++ u) noc).resp = _
        rw [transferAux_eq_step]
        simp only [transferStep, hdir, hen, if_true, hncast, if_false]
      · show (transferFileAux cfg env fs 1
          (cfg.serverRoot ++ "/" ++ u ++ "/" ++ cfg.indexFile) noc).resp = _
        rw [transferAux_eq_step]
        simp only [transferStep, hidx, hzero, Nat.lt_irrefl, if_false]
  refine ⟨?_, ?_, ?_⟩
  · have hresp : ∀ noc : Nat,
        (transferFile cfg env fs (cfg.serverRoot ++ "/" ++ tok b1 1) noc).resp =
          (transferFile cfg env fs (cfg.serverRoot ++ "/" ++ tok b2 1) noc).resp := by
      intro noc
      rw [hu1, hu2, hpath]
      rcases hmain noc with he | ⟨ha, hb⟩
      · rw [he]
      · rw [ha, hb]
    rcases hGH with hg | hhd
    · rw [handle_GET cfg env fs b1 h1 (hm1.trans hg), handle_GET cfg env fs b2 h2 (hm2.trans hg)]
      exact hresp CONTENT_YES
    · rw [handle_HEAD cfg env fs b1 h1 (hm1.trans hhd), handle_HEAD cfg env fs b2 h2 (hm2.trans hhd)]
      exact hresp CONTENT_NO
  · intro hpos
    have hcast : 0 < getFileSize fs (cfg.serverRoot ++ "/" ++ u ++ "/" ++ cfg.indexFile) := by
      rw [hsz]
      exact_mod_cast hpos
    refine ⟨?_, ?_, ?_⟩
    · rw [transferCalls]
      simp only [transferCallsStep, hdir, hen, if_true, hcast]
      rw [transferCalls]
      simp only [transferCallsStep, hidx]
    · simp [probe, hidx]
    · intro fuel
      cases fuel <;> (rw [transferCalls]; simp only [transferCallsStep, hidx])
  · intro hzero
    have hncast : ¬ 0 < getFileSize fs (cfg.serverRoot ++ "/" ++ u ++ "/" ++ cfg.indexFile) := by
      rw [hsz, hzero]
      decide
    rw [transferCalls]
    simp only [transferCallsStep, hdir, hen, if_true, hncast, if_false]

theorem claim_C4_witness :
    (handleHTTPRequest cfg0 env0 fsDirIdx "GET /d P Host: h").response =
      (handleHTTPRequest cfg0 env0 fsDirIdx "GET /d/index.html P Host: h").response ∧
    transferCalls cfg0 fsDirIdx 1 (cfg0.serverRoot ++ "/" ++ "/d") = 1 := by
  have h := claim_C4_index_equiv cfg0 env0 fsDirIdx "/d" "GET"
    "GET /d P Host: h" "GET /d/index.html P Host: h" 0 "hello" 9 true true
    (by decide) (by decide) (by decide) (by decide) (Or.inl rfl)
    (by decide) (by decide) (by decide) (by decide) (by decide)
  exact ⟨h.1, (h.2.1 (by decide)).1⟩

end HttpServer
